import Mathlib

/-!
Verification of the api-go HTTP facade (`main.go`, current revision: the one
declaring both `createApiKey` and `deleteApiKey` on `Server`).

The Go program is a stateless pass-through: each handler decodes a JSON body,
builds a GraphQL mutation string with `fmt.Sprintf`, posts it with an API-Key
header via `client.Run`, and relays the outcome as an HTTP response.

Shallow embedding conventions:
* JSON decoding of the request body is abstracted as an `Except Unit` value
  (`.error ()` = `json.NewDecoder(r.Body).Decode` returned a non-nil error).
* The GraphQL transport `s.client.Run` is abstracted as an `Except String`
  parameter: `.error details` = `client.Run` returned a non-nil error with
  message `details`; `.ok resp` = it filled the response struct with `resp`.
* A handler run is summarised by a `HandlerOutcome`: the upstream call it made
  (if any), with the exact query string and API-Key header, and what it wrote
  to the `http.ResponseWriter`.
* A handler that returns without writing anything is recorded as
  `HttpWrite.noWrite`; Go's `net/http` then sends `200 OK` with an empty body,
  which `HttpWrite.statusSent` accounts for.
-/

/-- Go struct `InsertKeyRequest` (fields named by their JSON tags). -/
structure InsertKeyRequest where
  account_id : Int
  name : String
  notes : String
  ingestType : String
deriving DecidableEq, Repr

/-- element of `NewRelicResponse.APIAccessCreateKeys.CreatedKeys`. -/
structure CreatedKey where
  id : String
  key : String
  name : String
  notes : String
  type : String
  ingestType : String
deriving DecidableEq, Repr

/-- element of `NewRelicResponse.APIAccessCreateKeys.Errors`. -/
structure CreateKeyError where
  message : String
  type : String
  accountId : Int
  errorType : String
  ingestType : String
deriving DecidableEq, Repr

/-- Go struct `NewRelicResponse` (the `apiAccessCreateKeys` payload). -/
structure NewRelicResponse where
  createdKeys : List CreatedKey
  errors : List CreateKeyError
deriving DecidableEq, Repr

/-- Go struct `DeleteKeyRequest`. -/
structure DeleteKeyRequest where
  id : String
deriving DecidableEq, Repr

/-- element of `DeleteKeysResponse...DeletedKeys`. -/
structure DeletedKey where
  id : String
deriving DecidableEq, Repr

/-- nested `ApiAccessIngestKeyError` struct of a delete-keys error. -/
structure DeleteKeyErrorDetail where
  id : String
  message : String
  errorType : String
  accountId : String
deriving DecidableEq, Repr

/-- element of `DeleteKeysResponse...Errors`. -/
structure DeleteKeyError where
  message : String
  type : String
  apiAccessIngestKeyError : DeleteKeyErrorDetail
deriving DecidableEq, Repr

/-- Go struct `DeleteKeysResponse` (the `apiAccessDeleteKeys` payload). -/
structure DeleteKeysResponse where
  deletedKeys : List DeletedKey
  errors : List DeleteKeyError
deriving DecidableEq, Repr

/-- Go struct `Server`.  The `client *graphql.Client` handle is not data the
handlers inspect; it is modelled by the `upstream` parameter of each handler.
`apiKey` is the credential `main` captures from the environment at startup. -/
structure Server where
  apiKey : String
deriving DecidableEq, Repr

/-! ### fmt.Sprintf model (the verbs these templates use: %d, %s, %q) -/

/-- an argument passed to `fmt.Sprintf`. -/
inductive GoVal where
  | vInt (i : Int)
  | vStr (s : String)
deriving DecidableEq, Repr

/-- Go `%d` on an `int`. -/
def goFormatInt (i : Int) : String := toString i

/-- one printable ASCII character under Go `strconv.Quote` (what `%q` uses):
`"` and `\` get a backslash, other printable ASCII is copied verbatim.
The templates only ever quote printable ASCII ids, so control and non-ASCII
characters (which Go would escape numerically) are modelled verbatim. -/
def goQuoteChar (c : Char) : List Char :=
  if c = '"' then ['\\', '"']
  else if c = '\\' then ['\\', '\\']
  else [c]

/-- Go `strconv.Quote`: the argument between double quotes, escaped. -/
def goQuote (s : String) : String :=
  ⟨'"' :: (s.data.flatMap goQuoteChar) ++ ['"']⟩

/-- apply one `fmt` verb to one argument. -/
def goVerb (c : Char) (v : GoVal) : String :=
  match c, v with
  | 'd', .vInt i => goFormatInt i
  | 's', .vStr s => s
  | 'q', .vStr s => goQuote s
  | _, _ => "%!(BADVERB)"

/-- scan a format string, substituting each `%`-verb with the next argument
(Go prints `%!v(MISSING)` when arguments run out; neither fallback is
reachable from the two call sites in `main.go`). -/
def goSprintfAux : List Char → List GoVal → List Char
  | [], _ => []
  | '%' :: c :: rest, v :: args => (goVerb c v).data ++ goSprintfAux rest args
  | '%' :: c :: rest, [] => '%' :: '!' :: c :: '(' :: 'M' :: 'I' :: 'S' :: 'S' :: 'I' :: 'N' :: 'G' :: ')' :: goSprintfAux rest []
  | c :: rest, args => c :: goSprintfAux rest args

/-- Go `fmt.Sprintf` for the verbs used in `main.go`. -/
def goSprintf (format : String) (args : List GoVal) : String :=
  ⟨goSprintfAux format.data args⟩

/-! ### The two mutation templates (raw string literals from `main.go`) -/

/-- the raw-string `fmt.Sprintf` template of `createApiKey`, byte for byte. -/
def apiAccessCreateKeysTemplate : String :=
  "\n        mutation \x7b\n            apiAccessCreateKeys(\n                keys: \x7b\n                    ingest: \x7b\n                        accountId: %d\n                        ingestType: %s\n                        name: \"%s\"\n                        notes: \"%s\"\n                    \x7d\n                \x7d\n            ) \x7b\n                createdKeys \x7b\n                    id\n                    key\n                    name\n                    notes\n                    type\n                    ... on ApiAccessIngestKey \x7b\n                        ingestType\n                    \x7d\n                \x7d\n                errors \x7b\n                    message\n                    type\n                    ... on ApiAccessIngestKeyError \x7b\n                        accountId\n                        errorType\n                        ingestType\n                    \x7d\n                \x7d\n            \x7d\n        \x7d\n    "

/-- the raw-string `fmt.Sprintf` template of `deleteApiKey`, byte for byte. -/
def apiAccessDeleteKeysTemplate : String :=
  "\n\tmutation \x7b\n\t\tapiAccessDeleteKeys(keys: \x7b ingestKeyIds: [\"%q\"] \x7d) \x7b\n\t\t\tdeletedKeys \x7b\n\t\t\t\tid\n\t\t\t\x7d\n\t\t\terrors \x7b\n\t\t\t\tmessage\n\t\t\t\x7d\n\t\t\x7d\n\t\x7d"

/-- the mutation string `createApiKey` builds:
`fmt.Sprintf(template, request.AccountID, request.IngestType, request.Name, request.Notes)`. -/
def createMutation (request : InsertKeyRequest) : String :=
  goSprintf apiAccessCreateKeysTemplate
    [.vInt request.account_id, .vStr request.ingestType, .vStr request.name, .vStr request.notes]

/-- the mutation string `deleteApiKey` builds: `fmt.Sprintf(template, request.ID)`. -/
def deleteMutation (id : String) : String :=
  goSprintf apiAccessDeleteKeysTemplate [.vStr id]

/-! ### HTTP response writes and handler outcomes -/

/-- the JSON object a handler encodes on its success path:
`map[string]any\x7b"insert_key": createdKey\x7d` or
`map[string]any\x7b"deleted_key": request.ID\x7d`. -/
inductive ResponseJson where
  | insertKeyField (k : CreatedKey)
  | deletedKeyField (id : String)
deriving DecidableEq, Repr

/-- what a handler wrote to the `http.ResponseWriter`:
`httpError body status` models `http.Error(w, body, status)`;
`okJson v` models `w.WriteHeader(http.StatusOK)` followed by
`json.NewEncoder(w).Encode(...)`;
`noWrite` models returning from the handler without writing anything. -/
inductive HttpWrite where
  | httpError (body : String) (status : Nat)
  | okJson (v : ResponseJson)
  | noWrite
deriving DecidableEq, Repr

/-- the status line the client actually receives: `net/http` sends `200 OK`
for a handler that completed without writing a header. -/
def HttpWrite.statusSent : HttpWrite → Nat
  | .httpError _ status => status
  | .okJson _ => 200
  | .noWrite => 200

/-- the upstream GraphQL request a handler posted: the query string from
`graphql.NewRequest(mutation)` and the headers the handler set. -/
structure GraphQLCall where
  query : String
  apiKeyHeader : String
  contentTypeHeader : String
deriving DecidableEq, Repr

/-- one handler run: the upstream call made (if the send step was reached)
and the response write. -/
structure HandlerOutcome where
  call : Option GraphQLCall
  write : HttpWrite
deriving DecidableEq, Repr

/-! ### Go %v rendering of the create-keys error slice (the 400 body) -/

/-- Go `%v` of one anonymous error struct: `\x7bfield1 field2 ...\x7d`. -/
def goFormatCreateKeyError (e : CreateKeyError) : String :=
  "\x7b" ++ e.message ++ " " ++ e.type ++ " " ++ goFormatInt e.accountId ++ " "
    ++ e.errorType ++ " " ++ e.ingestType ++ "\x7d"

/-- Go `%v` of the error slice: elements space-separated inside brackets. -/
def goFormatCreateKeyErrors (l : List CreateKeyError) : String :=
  "[" ++ String.intercalate " " (l.map goFormatCreateKeyError) ++ "]"

/-! ### The handlers -/

/-- `(s *Server) createApiKey` (the current revision, which uses `s.apiKey`):
decode the body; on decode error reply 400 and stop; build the mutation, set
the `API-Key` and `Content-Type` headers, run it; on transport error reply
500; if `len(CreatedKeys) > 0` reply 200 with `CreatedKeys[0]` under
`"insert_key"`; else if `len(Errors) > 0` reply 400 with the `%v`-rendered
slice; else reply 500 `"No key was created"`. -/
def createApiKey (s : Server) (decoded : Except Unit InsertKeyRequest)
    (upstream : Except String NewRelicResponse) : HandlerOutcome :=
  match decoded with
  | .error _ => ⟨none, .httpError "Invalid JSON request body" 400⟩
  | .ok request =>
    let mutation := createMutation request
    let call : GraphQLCall := ⟨mutation, s.apiKey, "application/json"⟩
    match upstream with
    | .error _ => ⟨some call, .httpError "Failed to create insert key" 500⟩
    | .ok responseData =>
      match responseData.createdKeys with
      | createdKey :: _ => ⟨some call, .okJson (.insertKeyField createdKey)⟩
      | [] =>
        match responseData.errors with
        | _ :: _ =>
          ⟨some call,
            .httpError ("API returned an error: " ++ goFormatCreateKeyErrors responseData.errors) 400⟩
        | [] => ⟨some call, .httpError "No key was created" 500⟩

set_option linter.unusedVariables false in
/-- `(s *Server) deleteApiKey`: read `NEW_RELIC_API_KEY` from the environment
at request time (`envApiKey`); if empty reply 401 and stop; decode the body;
on decode error or empty id, log and return (nothing written); build the
mutation, set headers with the request-time credential, run it; on transport
error reply 500; if `len(Errors) > 0`, log and return (nothing written);
else `WriteHeader(200)` and encode `request.ID` under `"deleted_key"`.
`s` is the receiver; this handler only uses its `client`, never `s.apiKey`. -/
def deleteApiKey (s : Server) (envApiKey : String)
    (decoded : Except Unit DeleteKeyRequest)
    (upstream : Except String DeleteKeysResponse) : HandlerOutcome :=
  if envApiKey = "" then
    ⟨none, .httpError "\x7b\"error\": \"Missing NEW_RELIC_API_KEY\"\x7d" 401⟩
  else
    match decoded with
    | .error _ => ⟨none, .noWrite⟩
    | .ok request =>
      if request.id = "" then ⟨none, .noWrite⟩
      else
        let call : GraphQLCall := ⟨deleteMutation request.id, envApiKey, "application/json"⟩
        match upstream with
        | .error details =>
          ⟨some call,
            .httpError ("\x7b\"error\": \"Failed to delete key\", \"details\": \"" ++ details ++ "\"\x7d") 500⟩
        | .ok responseData =>
          match responseData.errors with
          | _ :: _ => ⟨some call, .noWrite⟩
          | [] => ⟨some call, .okJson (.deletedKeyField request.id)⟩

/-! ### substring containment (for claims about what a built string contains) -/

/-- `needle` is a prefix of `hay` (character lists). -/
def charsPrefixOf : List Char → List Char → Bool
  | [], _ => true
  | _ :: _, [] => false
  | a :: as, b :: bs => a == b && charsPrefixOf as bs

/-- `needle` occurs somewhere in `hay` (character lists). -/
def charsInfixOf (needle : List Char) : List Char → Bool
  | [] => charsPrefixOf needle []
  | b :: rest => charsPrefixOf needle (b :: rest) || charsInfixOf needle rest

/-- the string `needle` occurs contiguously in the string `hay`. -/
def containsSub (hay needle : String) : Bool :=
  charsInfixOf needle.data hay.data

/-! ### Claims -/

/-- Claim C1 (code bug): the claim says a delete whose upstream response has a
non-empty error list gets an HTTP error status.  The code at that branch only
logs (naming status 500 in the log line) and returns without writing, so
`net/http` sends `200 OK`: evaluated at a concrete delete of key `"abc"`
whose upstream response carries one error. -/
theorem deleteApiKey_upstream_errors_writes_nothing :
    (deleteApiKey ⟨"NRAK-key"⟩ "NRAK-key" (Except.ok ⟨"abc"⟩)
      (Except.ok ⟨[], [⟨"cannot delete key", "", ⟨"", "", "", ""⟩⟩]⟩)).write
      = HttpWrite.noWrite ∧
    HttpWrite.statusSent
      (deleteApiKey ⟨"NRAK-key"⟩ "NRAK-key" (Except.ok ⟨"abc"⟩)
        (Except.ok ⟨[], [⟨"cannot delete key", "", ⟨"", "", "", ""⟩⟩]⟩)).write = 200 :=
  ⟨rfl, rfl⟩

/-- Claim C2: once a create request reaches the upstream call, the response is
determined by the upstream shape — non-empty `createdKeys` gives `200 OK` with
the first created key under `"insert_key"`; otherwise non-empty `errors` gives
`400`; otherwise `500`. -/
theorem createApiKey_upstream_shape_determines_response
    (s : Server) (request : InsertKeyRequest) (resp : NewRelicResponse) :
    (∀ k ks, resp.createdKeys = k :: ks →
      (createApiKey s (Except.ok request) (Except.ok resp)).write
        = HttpWrite.okJson (ResponseJson.insertKeyField k) ∧
      HttpWrite.statusSent (createApiKey s (Except.ok request) (Except.ok resp)).write = 200) ∧
    (resp.createdKeys = [] → resp.errors ≠ [] →
      (createApiKey s (Except.ok request) (Except.ok resp)).write
        = HttpWrite.httpError
            ("API returned an error: " ++ goFormatCreateKeyErrors resp.errors) 400) ∧
    (resp.createdKeys = [] → resp.errors = [] →
      (createApiKey s (Except.ok request) (Except.ok resp)).write
        = HttpWrite.httpError "No key was created" 500) := by
  obtain ⟨ck, errs⟩ := resp
  refine ⟨?_, ?_, ?_⟩
  · rintro k ks rfl
    exact ⟨rfl, rfl⟩
  · rintro rfl h
    cases errs with
    | nil => exact absurd rfl h
    | cons e es => rfl
  · rintro rfl rfl
    rfl

/-- witness for C2: all three branches at concrete inputs. -/
theorem createApiKey_upstream_shape_determines_response_witness :
    (createApiKey ⟨"k"⟩ (Except.ok ⟨1, "n", "o", "BROWSER"⟩)
      (Except.ok ⟨[⟨"id1", "key1", "n", "o", "INGEST", "BROWSER"⟩], []⟩)).write
      = HttpWrite.okJson
          (ResponseJson.insertKeyField ⟨"id1", "key1", "n", "o", "INGEST", "BROWSER"⟩) ∧
    (createApiKey ⟨"k"⟩ (Except.ok ⟨1, "n", "o", "BROWSER"⟩)
      (Except.ok ⟨[], [⟨"m", "t", 1, "e", "BROWSER"⟩]⟩)).write
      = HttpWrite.httpError
          ("API returned an error: " ++ goFormatCreateKeyErrors [⟨"m", "t", 1, "e", "BROWSER"⟩]) 400 ∧
    (createApiKey ⟨"k"⟩ (Except.ok ⟨1, "n", "o", "BROWSER"⟩)
      (Except.ok ⟨[], []⟩)).write = HttpWrite.httpError "No key was created" 500 :=
  ⟨((createApiKey_upstream_shape_determines_response ⟨"k"⟩ ⟨1, "n", "o", "BROWSER"⟩
      ⟨[⟨"id1", "key1", "n", "o", "INGEST", "BROWSER"⟩], []⟩).1
      ⟨"id1", "key1", "n", "o", "INGEST", "BROWSER"⟩ [] rfl).1,
   (createApiKey_upstream_shape_determines_response ⟨"k"⟩ ⟨1, "n", "o", "BROWSER"⟩
      ⟨[], [⟨"m", "t", 1, "e", "BROWSER"⟩]⟩).2.1 rfl (List.cons_ne_nil _ _),
   (createApiKey_upstream_shape_determines_response ⟨"k"⟩ ⟨1, "n", "o", "BROWSER"⟩
      ⟨[], []⟩).2.2 rfl rfl⟩

/-- Claim C3, counterexample: `deleteApiKey` sends the credential read from
the environment at request time, not the one captured at startup — with
startup credential `"startup-key"` and request-time value `"request-key"`,
the upstream call carries `"request-key"`. -/
theorem deleteApiKey_header_not_startup_credential :
    ((deleteApiKey ⟨"startup-key"⟩ "request-key" (Except.ok ⟨"abc"⟩)
       (Except.ok ⟨[⟨"abc"⟩], []⟩)).call.map GraphQLCall.apiKeyHeader
       = some "request-key") ∧
    ("request-key" : String) ≠ "startup-key" :=
  ⟨rfl, by decide⟩

/-- Claim C3 as amended: every upstream call `createApiKey` makes carries the
startup credential `s.apiKey`; every upstream call `deleteApiKey` makes
carries the value of `NEW_RELIC_API_KEY` re-read at request time, which
coincides with the startup credential only while the environment variable is
unchanged. -/
theorem apiKey_header_provenance (s : Server) (envNow : String)
    (dec₁ : Except Unit InsertKeyRequest) (up₁ : Except String NewRelicResponse)
    (dec₂ : Except Unit DeleteKeyRequest) (up₂ : Except String DeleteKeysResponse)
    (c : GraphQLCall) :
    ((createApiKey s dec₁ up₁).call = some c → c.apiKeyHeader = s.apiKey) ∧
    ((deleteApiKey s envNow dec₂ up₂).call = some c → c.apiKeyHeader = envNow) := by
  constructor
  · intro h
    cases dec₁ with
    | error e => simp [createApiKey] at h
    | ok request =>
      cases up₁ with
      | error msg =>
        have h2 : (⟨createMutation request, s.apiKey, "application/json"⟩ : GraphQLCall) = c :=
          Option.some.inj h
        rw [← h2]
      | ok responseData =>
        obtain ⟨ck, errs⟩ := responseData
        have h2 : (⟨createMutation request, s.apiKey, "application/json"⟩ : GraphQLCall) = c := by
          cases ck with
          | cons k ks => exact Option.some.inj h
          | nil =>
            cases errs with
            | cons e es => exact Option.some.inj h
            | nil => exact Option.some.inj h
        rw [← h2]
  · intro h
    by_cases hE : envNow = ""
    · simp [deleteApiKey, hE] at h
    · cases dec₂ with
      | error e => simp [deleteApiKey, hE] at h
      | ok request =>
        by_cases hid : request.id = ""
        · simp [deleteApiKey, hE, hid] at h
        · have hred : (deleteApiKey s envNow (Except.ok request) up₂).call
              = some ⟨deleteMutation request.id, envNow, "application/json"⟩ := by
            cases up₂ with
            | error msg => simp [deleteApiKey, hE, hid]
            | ok responseData =>
              obtain ⟨dk, derrs⟩ := responseData
              cases derrs with
              | nil => simp [deleteApiKey, hE, hid]
              | cons e es => simp [deleteApiKey, hE, hid]
          rw [hred] at h
          have h2 := Option.some.inj h
          rw [← h2]

/-- witness for the amended C3: the create call at startup credential `"k1"`
and the delete call at request-time credential `"k2"`. -/
theorem apiKey_header_provenance_witness :
    (⟨createMutation ⟨1, "n", "o", "BROWSER"⟩, "k1", "application/json"⟩
      : GraphQLCall).apiKeyHeader = "k1" ∧
    (⟨deleteMutation "abc", "k2", "application/json"⟩ : GraphQLCall).apiKeyHeader = "k2" :=
  ⟨(apiKey_header_provenance ⟨"k1"⟩ "k2" (Except.ok ⟨1, "n", "o", "BROWSER"⟩)
      (Except.error "boom") (Except.error ()) (Except.error "boom")
      ⟨createMutation ⟨1, "n", "o", "BROWSER"⟩, "k1", "application/json"⟩).1 rfl,
   (apiKey_header_provenance ⟨"k1"⟩ "k2" (Except.error ()) (Except.error "boom")
      (Except.ok ⟨"abc"⟩) (Except.error "boom")
      ⟨deleteMutation "abc", "k2", "application/json"⟩).2 rfl⟩

/-- Claim C4 (code bug): the claim says the delete mutation embeds the key id
quoted exactly once, containing `ingestKeyIds: ["k"]`.  The template puts the
`%q` verb (which itself adds quotes) between literal quotes, so for id `"abc"`
the built string contains `ingestKeyIds: [""abc""]` and not
`ingestKeyIds: ["abc"]`. -/
theorem deleteMutation_double_quotes_key_id :
    containsSub (deleteMutation "abc") "ingestKeyIds: [\"\"abc\"\"]" = true ∧
    containsSub (deleteMutation "abc") "ingestKeyIds: [\"abc\"]" = false :=
  ⟨rfl, rfl⟩

set_option maxRecDepth 20000 in
/-- Claim C5: for every create request the built mutation is the fixed
`apiAccessCreateKeys` template with exactly the four user-supplied fields
interpolated at their designated positions — `account_id` at the `accountId:`
slot, `ingestType` at the `ingestType:` slot, `name` and `notes` inside the
quotes of their slots — the interleaved literal segments being constants of
the template. -/
theorem createMutation_template_decomposition (r : InsertKeyRequest) :
    createMutation r =
      "\n        mutation \x7b\n            apiAccessCreateKeys(\n                keys: \x7b\n                    ingest: \x7b\n                        accountId: "
      ++ (goFormatInt r.account_id
      ++ ("\n                        ingestType: "
      ++ (r.ingestType
      ++ ("\n                        name: \""
      ++ (r.name
      ++ ("\"\n                        notes: \""
      ++ (r.notes
      ++ "\"\n                    \x7d\n                \x7d\n            ) \x7b\n                createdKeys \x7b\n                    id\n                    key\n                    name\n                    notes\n                    type\n                    ... on ApiAccessIngestKey \x7b\n                        ingestType\n                    \x7d\n                \x7d\n                errors \x7b\n                    message\n                    type\n                    ... on ApiAccessIngestKeyError \x7b\n                        accountId\n                        errorType\n                        ingestType\n                    \x7d\n                \x7d\n            \x7d\n        \x7d\n    ")))))))
      := rfl

/-- Claim C6, counterexample: success bodies are not the upstream result
verbatim — with two created keys upstream, the create body holds only the
first one rewrapped under `"insert_key"`; with upstream deleted key `"up-id"`,
the delete body holds the request id `"req-id"` (request data substituted for
upstream data) under `"deleted_key"`. -/
theorem success_body_not_verbatim :
    ((createApiKey ⟨"k"⟩ (Except.ok ⟨1, "n", "o", "BROWSER"⟩)
        (Except.ok ⟨[⟨"id1", "key1", "n1", "o1", "INGEST", "BROWSER"⟩,
                     ⟨"id2", "key2", "n2", "o2", "INGEST", "BROWSER"⟩], []⟩)).write
      = HttpWrite.okJson
          (ResponseJson.insertKeyField ⟨"id1", "key1", "n1", "o1", "INGEST", "BROWSER"⟩)) ∧
    ((deleteApiKey ⟨"k"⟩ "k" (Except.ok ⟨"req-id"⟩)
        (Except.ok ⟨[⟨"up-id"⟩], []⟩)).write
      = HttpWrite.okJson (ResponseJson.deletedKeyField "req-id")) ∧
    ("req-id" : String) ≠ "up-id" :=
  ⟨rfl, rfl, by decide⟩

/-- Claim C6 as amended: on success the handlers rewrap rather than relay —
`createApiKey` responds with exactly the first created key under
`"insert_key"`, and `deleteApiKey` responds with the request's key id under
`"deleted_key"`. -/
theorem success_body_rewrapped (s : Server) (request : InsertKeyRequest)
    (k : CreatedKey) (ks : List CreatedKey) (errs : List CreateKeyError)
    (envNow id : String) (dks : List DeletedKey) :
    (createApiKey s (Except.ok request) (Except.ok ⟨k :: ks, errs⟩)).write
      = HttpWrite.okJson (ResponseJson.insertKeyField k) ∧
    (envNow ≠ "" → id ≠ "" →
      (deleteApiKey s envNow (Except.ok ⟨id⟩) (Except.ok ⟨dks, []⟩)).write
        = HttpWrite.okJson (ResponseJson.deletedKeyField id)) := by
  constructor
  · rfl
  · intro h1 h2
    simp [deleteApiKey, h1, h2]

/-- witness for the amended C6: both success paths at concrete inputs. -/
theorem success_body_rewrapped_witness :
    (createApiKey ⟨"k"⟩ (Except.ok ⟨1, "n", "o", "BROWSER"⟩)
        (Except.ok ⟨[⟨"i", "ky", "n", "o", "INGEST", "BROWSER"⟩], []⟩)).write
      = HttpWrite.okJson (ResponseJson.insertKeyField ⟨"i", "ky", "n", "o", "INGEST", "BROWSER"⟩) ∧
    (deleteApiKey ⟨"k"⟩ "k" (Except.ok ⟨"abc"⟩) (Except.ok ⟨[⟨"abc"⟩], []⟩)).write
      = HttpWrite.okJson (ResponseJson.deletedKeyField "abc") :=
  ⟨(success_body_rewrapped ⟨"k"⟩ ⟨1, "n", "o", "BROWSER"⟩
      ⟨"i", "ky", "n", "o", "INGEST", "BROWSER"⟩ [] [] "k" "abc" [⟨"abc"⟩]).1,
   (success_body_rewrapped ⟨"k"⟩ ⟨1, "n", "o", "BROWSER"⟩
      ⟨"i", "ky", "n", "o", "INGEST", "BROWSER"⟩ [] [] "k" "abc" [⟨"abc"⟩]).2
     (by decide) (by decide)⟩

/-- Claim C7: a create request whose body fails JSON decoding gets
`400 Bad Request` and the upstream send step is never reached, whatever the
transport would have answered. -/
theorem createApiKey_invalid_json_no_call_400 (s : Server)
    (upstream : Except String NewRelicResponse) :
    createApiKey s (Except.error ()) upstream
      = ⟨none, HttpWrite.httpError "Invalid JSON request body" 400⟩ := rfl

/-- Claim C8 (code bug): the claim says a delete request with a bad body or
empty key id gets an HTTP error status.  No upstream call is made (as
claimed), but the code only logs (naming status 400 in the log line) and
returns without writing, so `net/http` sends `200 OK`: evaluated at a failed
decode and at an empty key id. -/
theorem deleteApiKey_invalid_request_writes_nothing :
    deleteApiKey ⟨"NRAK-key"⟩ "NRAK-key" (Except.error ()) (Except.error "unreachable")
      = ⟨none, HttpWrite.noWrite⟩ ∧
    deleteApiKey ⟨"NRAK-key"⟩ "NRAK-key" (Except.ok ⟨""⟩) (Except.error "unreachable")
      = ⟨none, HttpWrite.noWrite⟩ ∧
    HttpWrite.statusSent HttpWrite.noWrite = 200 :=
  ⟨rfl, rfl, rfl⟩

/-- Claim C9: when `NEW_RELIC_API_KEY` read at request time is empty, the
delete handler replies `401` with the fixed JSON error body before the
request body is even decoded, and makes no upstream call — the outcome is the
same for every decode result and every would-be transport answer. -/
theorem deleteApiKey_missing_credential_401 (s : Server)
    (decoded : Except Unit DeleteKeyRequest)
    (upstream : Except String DeleteKeysResponse) :
    deleteApiKey s "" decoded upstream
      = ⟨none, HttpWrite.httpError "\x7b\"error\": \"Missing NEW_RELIC_API_KEY\"\x7d" 401⟩ := rfl

set_option maxRecDepth 100000 in
/-- Claim C10: interpolation is raw — a create request whose name is `a"b`
yields a mutation containing `name: "a"b"`, the double quote copied verbatim
into the quoted name slot. -/
theorem createMutation_embeds_quote_verbatim :
    containsSub (createMutation ⟨123, "a\"b", "mynotes", "BROWSER"⟩)
      "name: \"a\"b\"" = true := rfl
